import Mathlib

/-!
Verification development for the Cosmos-backed chat message store
(`agent_framework_cosmos/_chat_message_store.py`).

The Python class `CosmosChatMessageStore` is embedded as pure Lean functions in
explicit state-passing style.  Two kinds of state appear:

* `CosmosChatMessageStore` — the per-instance attributes assigned in
  `__init__` (`database_name`, `container_name`, `partition_key`, `thread_id`,
  `_save_one_every_message`, `_create_container_and_database`).

* `World` — state shared beyond a single instance: the Cosmos backend
  (databases, containers, stored items), a fault-injection list modelling
  arbitrary network failures of the underlying client, and — crucially —
  `classMessages`, the list bound to the class attribute
  `_messages: list[ChatMessage] = []`.  The Python `__init__` never assigns
  `self._messages`, so every instance reads and mutates the single class-level
  list; the embedding therefore keeps that list in `World`, not in the
  per-instance record.

Messages are opaque (`Msg : Type`), matching the source, which never inspects
a `ChatMessage`.
-/

namespace CosmosStore

deriving instance DecidableEq for Except

/-- The persisted-state document `CosmosStoreState` (a pydantic model):
`id: str | None = None`, `thread_id: str`,
`additional_properties: dict[str, Any] = {}`, `messages: list[ChatMessage] = []`.
The open `additional_properties` bag is modelled as an association list of
strings; the store round-trips it without interpretation. -/
structure CosmosStoreState (Msg : Type) where
  id : Option String
  thread_id : String
  additional_properties : List (String × String)
  messages : List Msg
  deriving DecidableEq, Repr

/-- The raw input to `CosmosStoreState` validation: a pydantic "values" dict as
seen by the `mode="before"` validator.  An outer `Option` distinguishes a key
that is absent from one that is present (for `id`, the inner `Option` is the
possibly-`None` value). -/
structure StateValues (Msg : Type) where
  id : Option (Option String)
  thread_id : Option String
  additional_properties : List (String × String)
  messages : List Msg
  deriving DecidableEq, Repr

/-- Python `CosmosStoreState.set_id_from_thread_id` (`@model_validator(mode="before")`):
if `"thread_id" in values and "id" not in values`, set
`values["id"] = values["thread_id"]`. -/
def set_id_from_thread_id {Msg : Type} (values : StateValues Msg) : StateValues Msg :=
  if values.thread_id.isSome ∧ values.id.isNone then
    { values with id := some values.thread_id }
  else values

/-- Errors of the azure cosmos client (`azure.cosmos.exceptions`):
`resourceNotFound` is `CosmosResourceNotFoundError`; `conflict` is the error a
`create_*` call raises when the resource already exists; `other` stands for any
other failure of the client (network, auth, ...), injected via the fault list. -/
inductive CosmosErr where
  | resourceNotFound
  | conflict
  | other
  deriving DecidableEq, Repr

/-- Errors surfaced by the store layer.
`validationError` is the pydantic `ValidationError`;
`invalidSettings` is `ServiceInvalidExecutionSettingsError`;
`serviceResponse op cause` is `ServiceResponseException` raised with an
f-string naming the failing operation `op` and chained `from` its cause;
`cosmos e` is a raw azure client error propagating unwrapped. -/
inductive StoreErr where
  | validationError
  | invalidSettings
  | cosmos (e : CosmosErr)
  | serviceResponse (op : String) (cause : StoreErr)
  deriving DecidableEq, Repr

/-- Python `CosmosStoreState.model_validate`: run the before-validator, then field
validation.  `thread_id` is a required `str` field, so its absence fails with
`ValidationError`; `id` defaults to `None`; the remaining fields default to
empty containers (already materialised in `StateValues`). -/
def CosmosStoreState.model_validate {Msg : Type} (values : StateValues Msg) :
    Except StoreErr (CosmosStoreState Msg) :=
  let v := set_id_from_thread_id values
  match v.thread_id with
  | none => .error .validationError
  | some tid =>
      .ok { id := v.id.getD none
            thread_id := tid
            additional_properties := v.additional_properties
            messages := v.messages }

/-- An item stored in a Cosmos container, addressed by database name, container
name, item id and partition-key value. -/
structure StoredItem (Msg : Type) where
  db : String
  container : String
  itemId : String
  pk : String
  doc : CosmosStoreState Msg
  deriving DecidableEq, Repr

/-- The Cosmos account visible through the client: which databases and
containers exist, and the stored items. -/
structure Backend (Msg : Type) where
  databases : List String
  containers : List (String × String)
  items : List (StoredItem Msg)
  deriving DecidableEq, Repr

/-- Shared, cross-instance state.
`faults` injects failures of the underlying client: each network call consumes
the head of the list and fails with a generic error when it is `true` (an empty
list means a healthy service).
`classMessages` is the list object bound to the class attribute
`CosmosChatMessageStore._messages`, shared by all instances because `__init__`
never rebinds `self._messages`. -/
structure World (Msg : Type) where
  backend : Backend Msg
  faults : List Bool
  classMessages : List Msg
  deriving DecidableEq, Repr

/-- Consume the next injected fault (no fault when the list is exhausted). -/
def takeFault {Msg : Type} (w : World Msg) : Bool × World Msg :=
  match w.faults with
  | [] => (false, w)
  | f :: rest => (f, { w with faults := rest })

/-- Client call `cosmos_client.get_database_client(name).read()` — metadata read of a
database; `CosmosResourceNotFoundError` when it does not exist. -/
def clientDatabaseRead {Msg : Type} (name : String) (w : World Msg) :
    Except CosmosErr Unit × World Msg :=
  let (f, w) := takeFault w
  if f then (.error .other, w)
  else if name ∈ w.backend.databases then (.ok (), w)
  else (.error .resourceNotFound, w)

/-- Client call `database.get_container_client(name).read()` — metadata read of a
container; `CosmosResourceNotFoundError` when it does not exist. -/
def clientContainerRead {Msg : Type} (db container : String) (w : World Msg) :
    Except CosmosErr Unit × World Msg :=
  let (f, w) := takeFault w
  if f then (.error .other, w)
  else if (db, container) ∈ w.backend.containers then (.ok (), w)
  else (.error .resourceNotFound, w)

/-- Client call `cosmos_client.create_database(name)` — fails with a conflict error when
the database already exists. -/
def clientCreateDatabase {Msg : Type} (name : String) (w : World Msg) :
    Except CosmosErr Unit × World Msg :=
  let (f, w) := takeFault w
  if f then (.error .other, w)
  else if name ∈ w.backend.databases then (.error .conflict, w)
  else (.ok (), { w with backend := { w.backend with databases := name :: w.backend.databases } })

/-- Client call `database.create_container(id=name, partition_key=...)` — not found when
the database is absent, conflict when the container already exists. -/
def clientCreateContainer {Msg : Type} (db container : String) (w : World Msg) :
    Except CosmosErr Unit × World Msg :=
  let (f, w) := takeFault w
  if f then (.error .other, w)
  else if db ∉ w.backend.databases then (.error .resourceNotFound, w)
  else if (db, container) ∈ w.backend.containers then (.error .conflict, w)
  else (.ok (), { w with backend := { w.backend with containers := (db, container) :: w.backend.containers } })

/-- Whether a stored item has the given address. -/
def itemKeyMatches {Msg : Type} (db container itemId pk : String) (it : StoredItem Msg) : Bool :=
  it.db == db && it.container == container && it.itemId == itemId && it.pk == pk

/-- Client call `container_client.read_item(item=..., partition_key=...)` —
`CosmosResourceNotFoundError` when the container or the item is absent. -/
def clientReadItem {Msg : Type} (db container itemId pk : String) (w : World Msg) :
    Except CosmosErr (CosmosStoreState Msg) × World Msg :=
  let (f, w) := takeFault w
  if f then (.error .other, w)
  else if (db, container) ∉ w.backend.containers then (.error .resourceNotFound, w)
  else
    match w.backend.items.find? (itemKeyMatches db container itemId pk) with
    | some it => (.ok it.doc, w)
    | none => (.error .resourceNotFound, w)

/-- Client call `container_client.upsert_item(document)` — insert-or-replace keyed by the
`id` of the document and its partition-key value.  The containers written by this
store use the default partition-key path `"/thread_id"`, so the partition-key
value is the `thread_id` of the document; the store always supplies an `id`
(Cosmos would auto-assign one if it were missing). -/
def clientUpsertItem {Msg : Type} (db container : String) (doc : CosmosStoreState Msg)
    (w : World Msg) : Except CosmosErr Unit × World Msg :=
  let (f, w) := takeFault w
  if f then (.error .other, w)
  else if (db, container) ∉ w.backend.containers then (.error .resourceNotFound, w)
  else
    let itemId := doc.id.getD ""
    let pk := doc.thread_id
    let kept := w.backend.items.filter (fun it => ¬ itemKeyMatches db container itemId pk it)
    (.ok (), { w with backend := { w.backend with
      items := { db := db, container := container, itemId := itemId, pk := pk, doc := doc } :: kept } })

/-- Settings model `CosmosDBNoSqlSettings`: a pydantic settings model with two required plain
`str` fields, `database_name` and `container_name`. -/
structure CosmosDBNoSqlSettings where
  database_name : String
  container_name : String
  deriving DecidableEq, Repr

/-- Validation (pydantic) of `CosmosDBNoSqlSettings`: both fields are
unconstrained `str` fields, so any string value — the empty string included —
passes, while a non-string value such as `None` (modelled as `Option.none`)
fails with `ValidationError`. -/
def CosmosDBNoSqlSettings.validate (database_name container_name : Option String) :
    Except StoreErr CosmosDBNoSqlSettings :=
  match database_name, container_name with
  | some db, some c => .ok { database_name := db, container_name := c }
  | _, _ => .error .validationError

/-- The per-instance attributes of `CosmosChatMessageStore` assigned in
`__init__`.  The cosmos client handle is the `World`; the in-memory message
list is the class attribute `World.classMessages` (see the module comment). -/
structure CosmosChatMessageStore where
  database_name : String
  container_name : String
  partition_key : String
  thread_id : String
  save_one_every_message : Bool
  create_container_and_database : Bool
  deriving DecidableEq, Repr

namespace CosmosChatMessageStore

/-- Python `CosmosChatMessageStore.__init__`: validate the settings (a
`ValidationError` is re-raised as `ServiceInvalidExecutionSettingsError`), then
assign the instance attributes.  No network call is made: the function does not
touch a `World` at all.  `fresh_uuid` stands for the `uuid4()` drawn when the
caller supplies no (or a falsy, i.e. empty-string) `thread_id`. -/
def init (database_name container_name : Option String) (partition_key : String)
    (thread_id : Option String) (save_one_every_message : Bool)
    (create_container_and_database : Bool) (fresh_uuid : String) :
    Except StoreErr CosmosChatMessageStore :=
  match CosmosDBNoSqlSettings.validate database_name container_name with
  | .error _ => .error .invalidSettings
  | .ok settings =>
      .ok { database_name := settings.database_name
            container_name := settings.container_name
            partition_key := partition_key
            thread_id := match thread_id with
              | some t => if t == "" then fresh_uuid else t
              | none => fresh_uuid
            save_one_every_message := save_one_every_message
            create_container_and_database := create_container_and_database }

/-- Python `_does_database_exist`: metadata read; `CosmosResourceNotFoundError` maps
to `False`, any other error is wrapped in a `ServiceResponseException`. -/
def does_database_exist {Msg : Type} (s : CosmosChatMessageStore) (w : World Msg) :
    Except StoreErr Bool × World Msg :=
  match clientDatabaseRead s.database_name w with
  | (.ok _, w) => (.ok true, w)
  | (.error .resourceNotFound, w) => (.ok false, w)
  | (.error e, w) => (.error (.serviceResponse "does_database_exist" (.cosmos e)), w)

/-- Python `_does_container_exist`: same pattern, scoped to the container. -/
def does_container_exist {Msg : Type} (s : CosmosChatMessageStore) (w : World Msg) :
    Except StoreErr Bool × World Msg :=
  match clientContainerRead s.database_name s.container_name w with
  | (.ok _, w) => (.ok true, w)
  | (.error .resourceNotFound, w) => (.ok false, w)
  | (.error e, w) => (.error (.serviceResponse "does_container_exist" (.cosmos e)), w)

/-- First half of `_create_database_and_container_if_not_exists`:
`if not await self._does_database_exist(): await self.cosmos_client.create_database(...)`.
Any exception — a `ServiceResponseException` already raised by the existence
check, or a raw client error from the create — is caught by the surrounding
try/except and wrapped in a further `ServiceResponseException`. -/
def ensureDatabaseStep {Msg : Type} (s : CosmosChatMessageStore) (w : World Msg) :
    Except StoreErr Unit × World Msg :=
  match does_database_exist s w with
  | (.error e, w) => (.error (.serviceResponse "create_database_or_container" e), w)
  | (.ok dbExists, w) =>
    if dbExists then (.ok (), w)
    else
      match clientCreateDatabase s.database_name w with
      | (.ok _, w) => (.ok (), w)
      | (.error e, w) => (.error (.serviceResponse "create_database_or_container" (.cosmos e)), w)

/-- Second half of `_create_database_and_container_if_not_exists`:
`if not await self._does_container_exist(): await database.create_container(...)`,
with the same wrapping by the surrounding try/except. -/
def ensureContainerStep {Msg : Type} (s : CosmosChatMessageStore) (w : World Msg) :
    Except StoreErr Unit × World Msg :=
  match does_container_exist s w with
  | (.error e, w) => (.error (.serviceResponse "create_database_or_container" e), w)
  | (.ok contExists, w) =>
    if contExists then (.ok (), w)
    else
      match clientCreateContainer s.database_name s.container_name w with
      | (.ok _, w) => (.ok (), w)
      | (.error e, w) => (.error (.serviceResponse "create_database_or_container" (.cosmos e)), w)

/-- Python `_create_database_and_container_if_not_exists`: check-then-create the
database, then the container; every exception from the four steps is wrapped by
the single surrounding try/except in a `ServiceResponseException` (split here
into the two steps above, each applying that same wrapping). -/
def create_database_and_container_if_not_exists {Msg : Type}
    (s : CosmosChatMessageStore) (w : World Msg) : Except StoreErr Unit × World Msg :=
  match ensureDatabaseStep s w with
  | (.error e, w) => (.error e, w)
  | (.ok _, w) => ensureContainerStep s w

/-- Python `_get_database_client` and `_get_container_client`: pure handle getters with
no I/O; the wrapped client calls cannot fail, so neither can these. -/
def get_container_client (_s : CosmosChatMessageStore) : Except StoreErr Unit :=
  .ok ()

/-- The tail of `serialize_state` after the optional resource creation:
build the `CosmosStoreState` document from the thread id and the current
in-memory list (`id=self.thread_id, thread_id=self.thread_id,
messages=self._messages`), obtain the container client, and `upsert_item` the
dumped document.  The upsert is not inside any try/except in the source, so its
error propagates unwrapped.  Returns `self.thread_id`. -/
def serializeUpsert {Msg : Type} (s : CosmosChatMessageStore) (w : World Msg) :
    CosmosChatMessageStore × World Msg × Except StoreErr String :=
  let doc : CosmosStoreState Msg :=
    { id := some s.thread_id
      thread_id := s.thread_id
      additional_properties := []
      messages := w.classMessages }
  match get_container_client s with
  | .error e => (s, w, .error e)
  | .ok _ =>
    match clientUpsertItem s.database_name s.container_name doc w with
    | (.error e, w) => (s, w, .error (.cosmos e))
    | (.ok _, w) => (s, w, .ok s.thread_id)

/-- Python `serialize_state`: if `_create_container_and_database` is set, run the
creation sequence and then clear the flag (when the sequence raises, the
assignment clearing the flag is never reached); then build and upsert the
state document and return the thread id. -/
def serialize_state {Msg : Type} (s : CosmosChatMessageStore) (w : World Msg) :
    CosmosChatMessageStore × World Msg × Except StoreErr String :=
  if s.create_container_and_database then
    match create_database_and_container_if_not_exists s w with
    | (.error e, w) => (s, w, .error e)
    | (.ok _, w) => serializeUpsert { s with create_container_and_database := false } w
  else serializeUpsert s w

/-- Python `add_messages`: `self._messages.extend(messages)` (the shared class-level
list), then, when `_save_one_every_message` is set, `await self.serialize_state()`. -/
def add_messages {Msg : Type} (s : CosmosChatMessageStore) (messages : List Msg)
    (w : World Msg) : CosmosChatMessageStore × World Msg × Except StoreErr Unit :=
  let w := { w with classMessages := w.classMessages ++ messages }
  if s.save_one_every_message then
    match serialize_state s w with
    | (s, w, .error e) => (s, w, .error e)
    | (s, w, .ok _) => (s, w, .ok ())
  else (s, w, .ok ())

/-- Python `list_messages`: returns `self._messages` — the shared class-level list. -/
def list_messages {Msg : Type} (_s : CosmosChatMessageStore) (w : World Msg) : List Msg :=
  w.classMessages

/-- Python `deserialize_state`: validate the incoming reference (a raw pydantic
`ValidationError` propagates), get the container client, `read_item` with the
`thread_id` of the reference as both item id and partition key — any exception from
the read, `CosmosResourceNotFoundError` included, is caught by the bare
`except Exception` and wrapped in a `ServiceResponseException` — then
re-validate the stored document (already in canonical shape, so the identity),
set `self.thread_id` from it and extend `self._messages` with its messages. -/
def deserialize_state {Msg : Type} (s : CosmosChatMessageStore) (ref : StateValues Msg)
    (w : World Msg) : CosmosChatMessageStore × World Msg × Except StoreErr Unit :=
  match CosmosStoreState.model_validate ref with
  | .error e => (s, w, .error e)
  | .ok v =>
    match get_container_client s with
    | .error e => (s, w, .error e)
    | .ok _ =>
      match clientReadItem s.database_name s.container_name v.thread_id v.thread_id w with
      | (.error e, w) => (s, w, .error (.serviceResponse "read_item" (.cosmos e)))
      | (.ok doc, w) =>
          ({ s with thread_id := doc.thread_id },
           { w with classMessages := w.classMessages ++ doc.messages },
           .ok ())

end CosmosChatMessageStore

/-- Concrete fixture: a backend holding one database `"db"` with one container
`"c"` and no stored items. -/
def demoBackend : Backend Nat :=
  { databases := ["db"], containers := [("db", "c")], items := [] }

/-- Concrete fixture: a healthy world over `demoBackend` with an empty shared
message list. -/
def demoWorld : World Nat :=
  { backend := demoBackend, faults := [], classMessages := [] }

/-- Concrete fixture: a store instance over `"db"`/`"c"` for thread `"t"`,
both policy flags off. -/
def demoStore : CosmosChatMessageStore :=
  { database_name := "db", container_name := "c", partition_key := "/thread_id",
    thread_id := "t", save_one_every_message := false,
    create_container_and_database := false }

/-- Concrete fixture: a deserialize reference carrying a thread identifier that
was never persisted. -/
def demoRefMissing : StateValues Nat :=
  { id := none, thread_id := some "missing", additional_properties := [], messages := [] }

/-- Concrete fixture: a deserialize reference carrying thread identifier `"t1"`. -/
def demoRefT1 : StateValues Nat :=
  { id := none, thread_id := some "t1", additional_properties := [], messages := [] }

/-- Concrete fixture: a healthy world whose container holds a persisted document
for thread `"t1"` with messages `[1, 2]`, while the shared in-memory list
already holds `[9]`. -/
def demoStoredWorld : World Nat :=
  { backend :=
      { databases := ["db"]
        containers := [("db", "c")]
        items :=
          [{ db := "db"
             container := "c"
             itemId := "t1"
             pk := "t1"
             doc :=
               { id := some "t1"
                 thread_id := "t1"
                 additional_properties := []
                 messages := [1, 2] } }] }
    faults := []
    classMessages := [9] }

/-- Concrete fixture: the fixture store with resource auto-creation requested. -/
def demoCreateStore : CosmosChatMessageStore :=
  { demoStore with create_container_and_database := true }

/-- Concrete fixture: a healthy world over a completely empty Cosmos account. -/
def demoEmptyWorld : World Nat :=
  { backend := { databases := [], containers := [], items := [] },
    faults := [], classMessages := [] }

/-- Concrete fixture: the store produced by constructing a fresh instance over
`"db"`/`"c"` with no caller-supplied thread identifier (uuid `"u"`). -/
def demoFreshStore : CosmosChatMessageStore :=
  { database_name := "db", container_name := "c", partition_key := "/thread_id",
    thread_id := "u", save_one_every_message := false,
    create_container_and_database := false }

end CosmosStore

namespace CosmosStore

open CosmosChatMessageStore

section FrameLemmas

variable {Msg : Type}

theorem takeFault_classMessages (w : World Msg) :
    (takeFault w).2.classMessages = w.classMessages := by
  obtain ⟨b, fs, cm⟩ := w
  cases fs <;> rfl

theorem clientDatabaseRead_classMessages (n : String) (w : World Msg) :
    (clientDatabaseRead n w).2.classMessages = w.classMessages := by
  obtain ⟨b, fs, cm⟩ := w
  cases fs <;> simp only [clientDatabaseRead, takeFault] <;> (repeat' split) <;> rfl

theorem clientContainerRead_classMessages (db c : String) (w : World Msg) :
    (clientContainerRead db c w).2.classMessages = w.classMessages := by
  obtain ⟨b, fs, cm⟩ := w
  cases fs <;> simp only [clientContainerRead, takeFault] <;> (repeat' split) <;> rfl

theorem clientCreateDatabase_classMessages (n : String) (w : World Msg) :
    (clientCreateDatabase n w).2.classMessages = w.classMessages := by
  obtain ⟨b, fs, cm⟩ := w
  cases fs <;> simp only [clientCreateDatabase, takeFault] <;> (repeat' split) <;> rfl

theorem clientCreateContainer_classMessages (db c : String) (w : World Msg) :
    (clientCreateContainer db c w).2.classMessages = w.classMessages := by
  obtain ⟨b, fs, cm⟩ := w
  cases fs <;> simp only [clientCreateContainer, takeFault] <;> (repeat' split) <;> rfl

theorem clientReadItem_classMessages (db c i pk : String) (w : World Msg) :
    (clientReadItem db c i pk w).2.classMessages = w.classMessages := by
  obtain ⟨b, fs, cm⟩ := w
  cases fs <;> simp only [clientReadItem, takeFault] <;> (repeat' split) <;> rfl

theorem clientUpsertItem_classMessages (db c : String) (d : CosmosStoreState Msg)
    (w : World Msg) : (clientUpsertItem db c d w).2.classMessages = w.classMessages := by
  obtain ⟨b, fs, cm⟩ := w
  cases fs <;> simp only [clientUpsertItem, takeFault] <;> (repeat' split) <;> rfl

theorem does_database_exist_classMessages (s : CosmosChatMessageStore) (w : World Msg) :
    (does_database_exist s w).2.classMessages = w.classMessages := by
  unfold does_database_exist
  have h := clientDatabaseRead_classMessages s.database_name w
  rcases hr : clientDatabaseRead s.database_name w with ⟨r, w'⟩
  rw [hr] at h
  rcases r with e | u
  · cases e <;> simpa using h
  · simpa using h

theorem does_container_exist_classMessages (s : CosmosChatMessageStore) (w : World Msg) :
    (does_container_exist s w).2.classMessages = w.classMessages := by
  unfold does_container_exist
  have h := clientContainerRead_classMessages s.database_name s.container_name w
  rcases hr : clientContainerRead s.database_name s.container_name w with ⟨r, w'⟩
  rw [hr] at h
  rcases r with e | u
  · cases e <;> simpa using h
  · simpa using h

theorem ensureDatabaseStep_classMessages (s : CosmosChatMessageStore) (w : World Msg) :
    (ensureDatabaseStep s w).2.classMessages = w.classMessages := by
  unfold ensureDatabaseStep
  have h1 := does_database_exist_classMessages s w
  rcases h1r : does_database_exist s w with ⟨r1, w1⟩
  rw [h1r] at h1
  rcases r1 with e1 | dbExists
  · simpa using h1
  · cases dbExists
    · have h2 := clientCreateDatabase_classMessages s.database_name w1
      rcases h2r : clientCreateDatabase s.database_name w1 with ⟨r2, w2⟩
      rw [h2r] at h2
      rcases r2 with e2 | u2 <;> simpa [h2r] using h2.trans h1
    · simpa using h1

theorem ensureContainerStep_classMessages (s : CosmosChatMessageStore) (w : World Msg) :
    (ensureContainerStep s w).2.classMessages = w.classMessages := by
  unfold ensureContainerStep
  have h1 := does_container_exist_classMessages s w
  rcases h1r : does_container_exist s w with ⟨r1, w1⟩
  rw [h1r] at h1
  rcases r1 with e1 | contExists
  · simpa using h1
  · cases contExists
    · have h2 := clientCreateContainer_classMessages
        s.database_name s.container_name w1
      rcases h2r : clientCreateContainer s.database_name s.container_name w1 with ⟨r2, w2⟩
      rw [h2r] at h2
      rcases r2 with e2 | u2 <;> simpa [h2r] using h2.trans h1
    · simpa using h1

theorem create_if_not_exists_classMessages (s : CosmosChatMessageStore) (w : World Msg) :
    (create_database_and_container_if_not_exists s w).2.classMessages = w.classMessages := by
  unfold create_database_and_container_if_not_exists
  have h1 := ensureDatabaseStep_classMessages s w
  rcases h1r : ensureDatabaseStep s w with ⟨r1, w1⟩
  rw [h1r] at h1
  rcases r1 with e1 | u1
  · simpa using h1
  · have h2 := ensureContainerStep_classMessages s w1
    simpa using h2.trans h1

theorem serializeUpsert_spec (s : CosmosChatMessageStore) (w : World Msg) :
    (serializeUpsert s w).1 = s ∧ (serializeUpsert s w).2.1.classMessages = w.classMessages := by
  simp only [serializeUpsert, get_container_client]
  have h := clientUpsertItem_classMessages s.database_name s.container_name
    { id := some s.thread_id, thread_id := s.thread_id,
      additional_properties := [], messages := w.classMessages } w
  rcases hr : clientUpsertItem s.database_name s.container_name
      { id := some s.thread_id, thread_id := s.thread_id,
        additional_properties := [], messages := w.classMessages } w with ⟨r, w'⟩
  rw [hr] at h
  rcases r with e | u <;> exact ⟨rfl, h⟩

theorem serialize_state_classMessages (s : CosmosChatMessageStore) (w : World Msg) :
    (serialize_state s w).2.1.classMessages = w.classMessages := by
  unfold serialize_state
  cases hcf : s.create_container_and_database
  · simpa using (serializeUpsert_spec s w).2
  · have h1 := create_if_not_exists_classMessages s w
    rcases h1r : create_database_and_container_if_not_exists s w with ⟨r1, w1⟩
    rw [h1r] at h1
    rcases r1 with e1 | u1
    · simpa using h1
    · have h2 := (serializeUpsert_spec { s with create_container_and_database := false } w1).2
      simpa using h2.trans h1

theorem serialize_state_store (s : CosmosChatMessageStore) (w : World Msg) :
    (serialize_state s w).1 = s ∨
      (serialize_state s w).1 = { s with create_container_and_database := false } := by
  unfold serialize_state
  cases hcf : s.create_container_and_database
  · left
    simpa using (serializeUpsert_spec s w).1
  · rcases h1r : create_database_and_container_if_not_exists s w with ⟨r1, w1⟩
    rcases r1 with e1 | u1
    · left
      simp
    · right
      simpa using (serializeUpsert_spec { s with create_container_and_database := false } w1).1

theorem clientUpsertItem_backend_sets (db c : String) (d : CosmosStoreState Msg)
    (w : World Msg) :
    (clientUpsertItem db c d w).2.backend.databases = w.backend.databases ∧
      (clientUpsertItem db c d w).2.backend.containers = w.backend.containers := by
  obtain ⟨⟨dbs, cs, its⟩, fs, cm⟩ := w
  cases fs <;> simp only [clientUpsertItem, takeFault] <;> (repeat' split) <;> exact ⟨rfl, rfl⟩

theorem serializeUpsert_backend_sets (s : CosmosChatMessageStore) (w : World Msg) :
    (serializeUpsert s w).2.1.backend.databases = w.backend.databases ∧
      (serializeUpsert s w).2.1.backend.containers = w.backend.containers := by
  simp only [serializeUpsert, get_container_client]
  have h := clientUpsertItem_backend_sets s.database_name s.container_name
    { id := some s.thread_id, thread_id := s.thread_id,
      additional_properties := [], messages := w.classMessages } w
  rcases hr : clientUpsertItem s.database_name s.container_name
      { id := some s.thread_id, thread_id := s.thread_id,
        additional_properties := [], messages := w.classMessages } w with ⟨r, w'⟩
  rw [hr] at h
  rcases r with e | u <;> exact h

theorem serialize_state_noflag_backend_sets (s : CosmosChatMessageStore) (w : World Msg)
    (h : s.create_container_and_database = false) :
    (serialize_state s w).2.1.backend.databases = w.backend.databases ∧
      (serialize_state s w).2.1.backend.containers = w.backend.containers := by
  unfold serialize_state
  rw [h]
  simpa using serializeUpsert_backend_sets s w

theorem clientDatabaseRead_nofault (n : String) (w : World Msg) (h : w.faults = []) :
    clientDatabaseRead n w =
      ((if n ∈ w.backend.databases then .ok () else .error .resourceNotFound), w) := by
  obtain ⟨b, fs, cm⟩ := w
  simp only at h
  subst h
  by_cases hdb : n ∈ b.databases <;> simp [clientDatabaseRead, takeFault, hdb]

theorem clientContainerRead_nofault (db c : String) (w : World Msg) (h : w.faults = []) :
    clientContainerRead db c w =
      ((if (db, c) ∈ w.backend.containers then .ok () else .error .resourceNotFound), w) := by
  obtain ⟨b, fs, cm⟩ := w
  simp only at h
  subst h
  by_cases hc : (db, c) ∈ b.containers <;> simp [clientContainerRead, takeFault, hc]

theorem clientCreateDatabase_nofault (n : String) (w : World Msg) (h : w.faults = [])
    (habs : n ∉ w.backend.databases) :
    clientCreateDatabase n w =
      (.ok (), { w with backend := { w.backend with databases := n :: w.backend.databases } }) := by
  obtain ⟨b, fs, cm⟩ := w
  simp only at h habs
  subst h
  simp [clientCreateDatabase, takeFault, habs]

theorem clientCreateContainer_nofault (db c : String) (w : World Msg) (h : w.faults = [])
    (hdb : db ∈ w.backend.databases) (habs : (db, c) ∉ w.backend.containers) :
    clientCreateContainer db c w =
      (.ok (), { w with backend := { w.backend with containers := (db, c) :: w.backend.containers } }) := by
  obtain ⟨b, fs, cm⟩ := w
  simp only at h hdb habs
  subst h
  simp [clientCreateContainer, takeFault, hdb, habs]

theorem clientReadItem_nofault_found (db c i pk : String) (w : World Msg) (it : StoredItem Msg)
    (h : w.faults = []) (hc : (db, c) ∈ w.backend.containers)
    (hf : w.backend.items.find? (itemKeyMatches db c i pk) = some it) :
    clientReadItem db c i pk w = (.ok it.doc, w) := by
  obtain ⟨b, fs, cm⟩ := w
  simp only at h hc hf
  subst h
  simp [clientReadItem, takeFault, hc, hf]

theorem clientReadItem_nofault_missing (db c i pk : String) (w : World Msg)
    (h : w.faults = []) (hf : w.backend.items.find? (itemKeyMatches db c i pk) = none) :
    clientReadItem db c i pk w = (.error .resourceNotFound, w) := by
  obtain ⟨b, fs, cm⟩ := w
  simp only at h hf
  subst h
  by_cases hc : (db, c) ∈ b.containers <;> simp [clientReadItem, takeFault, hc, hf]

theorem clientUpsertItem_nofault (db c : String) (d : CosmosStoreState Msg) (w : World Msg)
    (h : w.faults = []) (hc : (db, c) ∈ w.backend.containers) :
    clientUpsertItem db c d w =
      (.ok (), { w with backend := { w.backend with items :=
        ({ db := db, container := c, itemId := d.id.getD "", pk := d.thread_id, doc := d } ::
          w.backend.items.filter
            (fun it => ¬ itemKeyMatches db c (d.id.getD "") d.thread_id it)) } }) := by
  obtain ⟨b, fs, cm⟩ := w
  simp only at h hc
  subst h
  simp [clientUpsertItem, takeFault, hc]

theorem ensureDatabaseStep_nofault (s : CosmosChatMessageStore) (w : World Msg)
    (h : w.faults = []) :
    ensureDatabaseStep s w =
      (.ok (), if s.database_name ∈ w.backend.databases then w
        else { w with backend :=
          { w.backend with databases := s.database_name :: w.backend.databases } }) := by
  obtain ⟨⟨dbs, cs, its⟩, fs, cm⟩ := w
  simp only at h
  subst h
  by_cases hdb : s.database_name ∈ dbs <;>
    simp [ensureDatabaseStep, does_database_exist, clientDatabaseRead, clientCreateDatabase,
      takeFault, hdb]

theorem ensureContainerStep_nofault (s : CosmosChatMessageStore) (w : World Msg)
    (h : w.faults = []) (hdb : s.database_name ∈ w.backend.databases) :
    ensureContainerStep s w =
      (.ok (), if (s.database_name, s.container_name) ∈ w.backend.containers then w
        else { w with backend := { w.backend with
          containers := (s.database_name, s.container_name) :: w.backend.containers } }) := by
  obtain ⟨⟨dbs, cs, its⟩, fs, cm⟩ := w
  simp only at h hdb
  subst h
  by_cases hc : (s.database_name, s.container_name) ∈ cs <;>
    simp [ensureContainerStep, does_container_exist, clientContainerRead, clientCreateContainer,
      takeFault, hdb, hc]

theorem create_if_not_exists_nofault (s : CosmosChatMessageStore) (w : World Msg)
    (h : w.faults = []) :
    ∃ w1 : World Msg,
      create_database_and_container_if_not_exists s w = (.ok (), w1) ∧
      w1.faults = [] ∧
      w1.classMessages = w.classMessages ∧
      w1.backend.items = w.backend.items ∧
      (s.database_name, s.container_name) ∈ w1.backend.containers := by
  obtain ⟨⟨dbs, cs, its⟩, fs, cm⟩ := w
  simp only at h
  subst h
  by_cases hdb : s.database_name ∈ dbs <;>
    by_cases hc : (s.database_name, s.container_name) ∈ cs <;>
      simp [create_database_and_container_if_not_exists, ensureDatabaseStep, ensureContainerStep,
        does_database_exist, does_container_exist, clientDatabaseRead, clientContainerRead,
        clientCreateDatabase, clientCreateContainer, takeFault, hdb, hc]

theorem serializeUpsert_nofault (s : CosmosChatMessageStore) (w : World Msg)
    (h : w.faults = []) (hc : (s.database_name, s.container_name) ∈ w.backend.containers) :
    serializeUpsert s w =
      (s, { w with backend := { w.backend with items :=
        ({ db := s.database_name, container := s.container_name, itemId := s.thread_id,
           pk := s.thread_id,
           doc := { id := some s.thread_id, thread_id := s.thread_id,
                    additional_properties := [], messages := w.classMessages } } ::
          w.backend.items.filter
            (fun it => ¬ itemKeyMatches s.database_name s.container_name
                s.thread_id s.thread_id it)) } },
       .ok s.thread_id) := by
  obtain ⟨⟨dbs, cs, its⟩, fs, cm⟩ := w
  simp only at h hc
  subst h
  simp [serializeUpsert, get_container_client, clientUpsertItem, takeFault, hc]

theorem serialize_state_nofault (s : CosmosChatMessageStore) (w : World Msg)
    (h : w.faults = [])
    (hc : s.create_container_and_database = true ∨
      (s.database_name, s.container_name) ∈ w.backend.containers) :
    ∃ w1 : World Msg,
      serialize_state s w =
        ({ s with create_container_and_database := false }, w1, .ok s.thread_id) ∧
      w1.faults = [] ∧
      w1.classMessages = w.classMessages ∧
      (s.database_name, s.container_name) ∈ w1.backend.containers ∧
      w1.backend.items.find?
          (itemKeyMatches s.database_name s.container_name s.thread_id s.thread_id) =
        some { db := s.database_name, container := s.container_name, itemId := s.thread_id,
               pk := s.thread_id,
               doc := { id := some s.thread_id, thread_id := s.thread_id,
                        additional_properties := [], messages := w.classMessages } } := by
  cases hflag : s.create_container_and_database
  · have hcc : (s.database_name, s.container_name) ∈ w.backend.containers := by
      rcases hc with h1 | h1
      · rw [hflag] at h1
        cases h1
      · exact h1
    have hs : ({ s with create_container_and_database := false } :
        CosmosChatMessageStore) = s := by
      cases s
      simp_all
    refine ⟨{ w with backend := { w.backend with items :=
        ({ db := s.database_name, container := s.container_name, itemId := s.thread_id,
           pk := s.thread_id,
           doc := { id := some s.thread_id, thread_id := s.thread_id,
                    additional_properties := [], messages := w.classMessages } } ::
          w.backend.items.filter
            (fun it => ¬ itemKeyMatches s.database_name s.container_name
                s.thread_id s.thread_id it)) } }, ?_, h, rfl, hcc, ?_⟩
    · rw [hs]
      unfold serialize_state
      rw [hflag]
      simpa using serializeUpsert_nofault s w h hcc
    · rw [List.find?_cons_of_pos _ (by simp [itemKeyMatches])]
  · obtain ⟨wc, hceq, hcf, hccm, hcit, hccont⟩ := create_if_not_exists_nofault s w h
    have hup := serializeUpsert_nofault { s with create_container_and_database := false } wc hcf
      (by simpa using hccont)
    refine ⟨{ wc with backend := { wc.backend with items :=
        ({ db := s.database_name, container := s.container_name, itemId := s.thread_id,
           pk := s.thread_id,
           doc := { id := some s.thread_id, thread_id := s.thread_id,
                    additional_properties := [], messages := wc.classMessages } } ::
          wc.backend.items.filter
            (fun it => ¬ itemKeyMatches s.database_name s.container_name
                s.thread_id s.thread_id it)) } }, ?_, hcf, ?_, ?_, ?_⟩
    · unfold serialize_state
      rw [hflag]
      simp only [if_true]
      rw [hceq]
      simpa using hup
    · simpa using hccm
    · simpa using hccont
    · simp only
      rw [List.find?_cons_of_pos _ (by simp [itemKeyMatches])]
      simp [hccm]

theorem deserialize_state_found (s : CosmosChatMessageStore) (ref : StateValues Msg)
    (w w' : World Msg) (v doc : CosmosStoreState Msg)
    (hv : CosmosStoreState.model_validate ref = .ok v)
    (hr : clientReadItem s.database_name s.container_name v.thread_id v.thread_id w
      = (.ok doc, w')) :
    deserialize_state s ref w =
      ({ s with thread_id := doc.thread_id },
       { w' with classMessages := w'.classMessages ++ doc.messages }, .ok ()) := by
  unfold deserialize_state
  rw [hv]
  simp [get_container_client, hr]

theorem deserialize_state_read_error (s : CosmosChatMessageStore) (ref : StateValues Msg)
    (w w' : World Msg) (v : CosmosStoreState Msg) (e : CosmosErr)
    (hv : CosmosStoreState.model_validate ref = .ok v)
    (hr : clientReadItem s.database_name s.container_name v.thread_id v.thread_id w
      = (.error e, w')) :
    deserialize_state s ref w =
      (s, w', .error (.serviceResponse "read_item" (.cosmos e))) := by
  unfold deserialize_state
  rw [hv]
  simp [get_container_client, hr]

end FrameLemmas

end CosmosStore


namespace CosmosStore

section Claims

open CosmosChatMessageStore

/-- C7: a persisted-state document constructed without an explicit `id` but
with a thread identifier always satisfies `id == thread_id` — the before-mode
validator copies `thread_id` into the missing `id`. -/
theorem C7_id_derived_from_thread_id {Msg : Type} (tid : String)
    (ap : List (String × String)) (ms : List Msg) :
    ∃ d : CosmosStoreState Msg,
      CosmosStoreState.model_validate
          { id := none, thread_id := some tid, additional_properties := ap, messages := ms } =
        .ok d ∧ d.id = some d.thread_id ∧ d.thread_id = tid :=
  ⟨_, rfl, rfl, rfl⟩

/-- C10: `serialize_state` never modifies the in-memory message sequence or the
thread identifier — for every store and world, the store returned by
`serialize_state` (whether it succeeds or fails) agrees with the input store on
every field except possibly the pending-creation flag, and the shared message
list is unchanged. -/
theorem C10_serialize_state_frame {Msg : Type} (s : CosmosChatMessageStore)
    (w : World Msg) :
    (serialize_state s w).1.thread_id = s.thread_id ∧
    (serialize_state s w).1.database_name = s.database_name ∧
    (serialize_state s w).1.container_name = s.container_name ∧
    (serialize_state s w).1.partition_key = s.partition_key ∧
    (serialize_state s w).1.save_one_every_message = s.save_one_every_message ∧
    (serialize_state s w).2.1.classMessages = w.classMessages := by
  rcases serialize_state_store s w with hst | hst <;>
    simp [hst, serialize_state_classMessages s w]

/-- C8: `add_messages` appends the given collection to the in-memory sequence
preserving relative order; an empty collection leaves the buffer unchanged and,
when the eager-write flag is off, is a complete no-op returning success. -/
theorem C8_add_messages_appends {Msg : Type} (s : CosmosChatMessageStore)
    (C : List Msg) (w : World Msg) :
    (add_messages s C w).2.1.classMessages = w.classMessages ++ C ∧
    (C = [] → (add_messages s C w).2.1.classMessages = w.classMessages) ∧
    (C = [] → s.save_one_every_message = false →
      add_messages s C w = (s, w, .ok ())) := by
  have h1 : (add_messages s C w).2.1.classMessages = w.classMessages ++ C := by
    unfold add_messages
    cases hf : s.save_one_every_message
    · simp
    · simp only [if_true]
      have hcm := serialize_state_classMessages s
        { w with classMessages := w.classMessages ++ C }
      rcases hr : serialize_state s { w with classMessages := w.classMessages ++ C }
        with ⟨s1, w1, r⟩
      rw [hr] at hcm
      rcases r with e | t <;> simpa [hr] using hcm
  refine ⟨h1, fun hC => by simpa [hC] using h1, fun hC hf => ?_⟩
  subst hC
  unfold add_messages
  rw [hf]
  simp

/-- C8 witness: adding the empty collection to the fixture store (eager flag
off) leaves store, world and result untouched. -/
theorem C8_add_messages_appends_witness :
    add_messages demoStore [] demoWorld = (demoStore, demoWorld, .ok ()) :=
  (C8_add_messages_appends demoStore [] demoWorld).2.2 rfl rfl

/-- C4: with the eager-write flag enabled, every `add_messages` call is the
extension of the shared buffer followed by a full `serialize_state` (the
result being that of the serialize); with the flag disabled, `add_messages`
only extends the buffer and touches neither the backend nor the fault stream —
no network write happens until `serialize_state` is called explicitly. -/
theorem C4_eager_write_policy {Msg : Type} (s : CosmosChatMessageStore)
    (msgs : List Msg) (w : World Msg) :
    (s.save_one_every_message = true →
      add_messages s msgs w =
        ((serialize_state s { w with classMessages := w.classMessages ++ msgs }).1,
         (serialize_state s { w with classMessages := w.classMessages ++ msgs }).2.1,
         (serialize_state s { w with classMessages := w.classMessages ++ msgs }).2.2.map
           (fun _ => ()))) ∧
    (s.save_one_every_message = false →
      add_messages s msgs w =
        (s, { w with classMessages := w.classMessages ++ msgs }, .ok ())) := by
  constructor
  · intro hf
    unfold add_messages
    rw [hf]
    rcases hr : serialize_state s { w with classMessages := w.classMessages ++ msgs }
      with ⟨s1, w1, r⟩
    rcases r with e | t <;> simp [hr, Except.map]
  · intro hf
    unfold add_messages
    rw [hf]
    simp

/-- C4 witness: the two policies evaluated on the fixture store with one
message. -/
theorem C4_eager_write_policy_witness :
    (add_messages { demoStore with save_one_every_message := true } [5] demoWorld =
      ((serialize_state { demoStore with save_one_every_message := true }
          { demoWorld with classMessages := demoWorld.classMessages ++ [5] }).1,
       (serialize_state { demoStore with save_one_every_message := true }
          { demoWorld with classMessages := demoWorld.classMessages ++ [5] }).2.1,
       (serialize_state { demoStore with save_one_every_message := true }
          { demoWorld with classMessages := demoWorld.classMessages ++ [5] }).2.2.map
         (fun _ => ()))) ∧
    add_messages demoStore [5] demoWorld =
      (demoStore, { demoWorld with classMessages := demoWorld.classMessages ++ [5] }, .ok ()) :=
  ⟨(C4_eager_write_policy { demoStore with save_one_every_message := true } [5] demoWorld).1 rfl,
   (C4_eager_write_policy demoStore [5] demoWorld).2 rfl⟩

/-- C2 counterexample: deserializing a thread identifier with no corresponding
document yields the generic `ServiceResponseException` (what the spec calls
`PersistenceError`) wrapping the not-found error — the same wrapper constructor
every other read failure uses — and not the bare, branchable
`CosmosResourceNotFoundError`. -/
theorem C2_missing_document_counterexample :
    (deserialize_state demoStore demoRefMissing demoWorld).2.2 =
      .error (.serviceResponse "read_item" (.cosmos .resourceNotFound)) ∧
    (deserialize_state demoStore demoRefMissing demoWorld).2.2 ≠
      .error (.cosmos .resourceNotFound) := by
  constructor
  · decide
  · decide

/-- C2 amended: for every thread identifier with no corresponding document in
the backing store, `deserialize_state` fails with the generic
`ServiceResponseException` ("PersistenceError") whose cause is the not-found
error — the bare `except Exception` around `read_item` wraps
`CosmosResourceNotFoundError` like any other failure, so no distinct
`NotFoundError` reaches the caller (and the call is not an empty success). -/
theorem C2_missing_document_wrapped {Msg : Type} (s : CosmosChatMessageStore)
    (ref : StateValues Msg) (w : World Msg) (v : CosmosStoreState Msg)
    (hv : CosmosStoreState.model_validate ref = .ok v)
    (h : w.faults = [])
    (hf : w.backend.items.find?
      (itemKeyMatches s.database_name s.container_name v.thread_id v.thread_id) = none) :
    deserialize_state s ref w =
      (s, w, .error (.serviceResponse "read_item" (.cosmos .resourceNotFound))) :=
  deserialize_state_read_error s ref w w v .resourceNotFound hv
    (clientReadItem_nofault_missing s.database_name s.container_name
      v.thread_id v.thread_id w h hf)

/-- C2 witness: the amended statement evaluated on the fixture store and a
never-persisted thread identifier. -/
theorem C2_missing_document_wrapped_witness :
    deserialize_state demoStore demoRefMissing demoWorld =
      (demoStore, demoWorld,
        .error (.serviceResponse "read_item" (.cosmos .resourceNotFound))) :=
  C2_missing_document_wrapped demoStore demoRefMissing demoWorld
    { id := some "missing", thread_id := "missing",
      additional_properties := [], messages := [] }
    rfl rfl rfl

/-- C3 (code bug): `_messages` is a mutable class attribute that `__init__`
never rebinds, so all instances share one buffer.  Evaluating the code:
starting from an empty shared list, construct a store for thread `"t1"`,
append message `7` through it, then construct a second, fresh store — its
`list_messages()` returns `[7]`, not the empty sequence the claim (and the
documented lifecycle) requires. -/
theorem C3_shared_buffer_code_bug :
    (CosmosChatMessageStore.init (some "db") (some "c") "/thread_id"
        (some "t1") false false "u1").bind (fun s1 =>
      (CosmosChatMessageStore.init (some "db") (some "c") "/thread_id"
          (some "t2") false false "u2").map (fun s2 =>
        list_messages s2 (add_messages s1 [7] demoWorld).2.1)) =
      .ok [7] := by
  decide

/-- C6 counterexample: constructing a store with an empty database name and an
empty container name succeeds — pydantic accepts `""` for an unconstrained
`str` field, so no `ConfigurationError` is raised. -/
theorem C6_empty_name_counterexample :
    CosmosChatMessageStore.init (some "") (some "") "/thread_id" (some "t")
        false false "u" =
      .ok { database_name := "", container_name := "", partition_key := "/thread_id",
            thread_id := "t", save_one_every_message := false,
            create_container_and_database := false } := rfl

/-- C6 amended: constructing a store with a missing (non-string, e.g. `None`)
database or container name fails with `ConfigurationError`
(`ServiceInvalidExecutionSettingsError`) before any interaction with the
backend — construction takes no `World` at all — while any string name, the
empty string included, is accepted. -/
theorem C6_name_validation (dn cn : Option String) (pk : String)
    (tid : Option String) (sv cr : Bool) (u : String) :
    ((dn = none ∨ cn = none) →
      CosmosChatMessageStore.init dn cn pk tid sv cr u = .error .invalidSettings) ∧
    (∀ d c, dn = some d → cn = some c →
      ∃ st, CosmosChatMessageStore.init dn cn pk tid sv cr u = .ok st ∧
        st.database_name = d ∧ st.container_name = c) := by
  constructor
  · rintro (h | h)
    · subst h
      rfl
    · subst h
      cases dn <;> rfl
  · rintro d c hd hc
    subst hd
    subst hc
    exact ⟨_, rfl, rfl, rfl⟩

/-- C6 witness: a `None` database name is rejected; empty-string names are
accepted. -/
theorem C6_name_validation_witness :
    CosmosChatMessageStore.init none (some "c") "/thread_id" none false false "u" =
      .error .invalidSettings ∧
    ∃ st, CosmosChatMessageStore.init (some "") (some "c") "/thread_id" none false false "u" =
      .ok st ∧ st.database_name = "" ∧ st.container_name = "c" :=
  ⟨(C6_name_validation none (some "c") "/thread_id" none false false "u").1 (Or.inl rfl),
   (C6_name_validation (some "") (some "c") "/thread_id" none false false "u").2 "" "c" rfl rfl⟩

/-- C9: on a successful `deserialize_state`, the thread identifier of the store is
replaced by the one in the loaded document and the loaded messages are appended
after the messages already in the in-memory sequence — an additive restore,
not a replacement. -/
theorem C9_additive_restore {Msg : Type} (s : CosmosChatMessageStore)
    (ref : StateValues Msg) (w w' : World Msg) (v doc : CosmosStoreState Msg)
    (hv : CosmosStoreState.model_validate ref = .ok v)
    (hr : clientReadItem s.database_name s.container_name v.thread_id v.thread_id w
      = (.ok doc, w')) :
    (deserialize_state s ref w).1.thread_id = doc.thread_id ∧
    (deserialize_state s ref w).2.1.classMessages = w.classMessages ++ doc.messages ∧
    (deserialize_state s ref w).2.2 = .ok () := by
  have hcm := clientReadItem_classMessages s.database_name s.container_name
    v.thread_id v.thread_id w
  rw [hr] at hcm
  rw [deserialize_state_found s ref w w' v doc hv hr]
  exact ⟨rfl, by simpa using hcm, rfl⟩

/-- C9 witness: restoring thread `"t1"` (stored messages `[1, 2]`) into a store
whose shared buffer already holds `[9]` yields thread id `"t1"` and buffer
`[9, 1, 2]`. -/
theorem C9_additive_restore_witness :
    (deserialize_state demoStore demoRefT1 demoStoredWorld).1.thread_id = "t1" ∧
    (deserialize_state demoStore demoRefT1 demoStoredWorld).2.1.classMessages =
      [9, 1, 2] ∧
    (deserialize_state demoStore demoRefT1 demoStoredWorld).2.2 = .ok () := by
  have h := C9_additive_restore demoStore demoRefT1 demoStoredWorld demoStoredWorld
    { id := some "t1", thread_id := "t1", additional_properties := [], messages := [] }
    { id := some "t1", thread_id := "t1", additional_properties := [], messages := [1, 2] }
    rfl (by decide)
  exact ⟨h.1, by simpa using h.2.1, h.2.2⟩

/-- C5: with auto-create enabled (pending-creation flag set) and a healthy
service, the first `serialize_state` call succeeds and clears the flag
(true to false), and the second sequential call — now with the flag off —
performs no creation: the set of databases and containers is unchanged by it
and the flag stays false. -/
theorem C5_auto_create_runs_once {Msg : Type} (s : CosmosChatMessageStore)
    (w : World Msg) (hflag : s.create_container_and_database = true)
    (h : w.faults = []) :
    (serialize_state s w).2.2 = .ok s.thread_id ∧
    (serialize_state s w).1.create_container_and_database = false ∧
    (serialize_state (serialize_state s w).1
        (serialize_state s w).2.1).1.create_container_and_database = false ∧
    (serialize_state (serialize_state s w).1
        (serialize_state s w).2.1).2.1.backend.databases =
      (serialize_state s w).2.1.backend.databases ∧
    (serialize_state (serialize_state s w).1
        (serialize_state s w).2.1).2.1.backend.containers =
      (serialize_state s w).2.1.backend.containers := by
  obtain ⟨w1, heq, hf1, hcm1, hcont1, hfind1⟩ := serialize_state_nofault s w h (Or.inl hflag)
  rw [heq]
  refine ⟨rfl, rfl, ?_, ?_, ?_⟩
  · rcases serialize_state_store { s with create_container_and_database := false } w1
      with hst | hst <;> simp [hst]
  · exact (serialize_state_noflag_backend_sets _ w1 rfl).1
  · exact (serialize_state_noflag_backend_sets _ w1 rfl).2

/-- C5 witness: the statement evaluated on the fixture store (auto-create on)
over an empty Cosmos account. -/
theorem C5_auto_create_runs_once_witness :
    (serialize_state demoCreateStore demoEmptyWorld).2.2 =
      .ok demoCreateStore.thread_id ∧
    (serialize_state demoCreateStore
        demoEmptyWorld).1.create_container_and_database = false ∧
    (serialize_state (serialize_state demoCreateStore demoEmptyWorld).1
        (serialize_state demoCreateStore
          demoEmptyWorld).2.1).1.create_container_and_database = false ∧
    (serialize_state (serialize_state demoCreateStore demoEmptyWorld).1
        (serialize_state demoCreateStore demoEmptyWorld).2.1).2.1.backend.databases =
      (serialize_state demoCreateStore demoEmptyWorld).2.1.backend.databases ∧
    (serialize_state (serialize_state demoCreateStore demoEmptyWorld).1
        (serialize_state demoCreateStore demoEmptyWorld).2.1).2.1.backend.containers =
      (serialize_state demoCreateStore demoEmptyWorld).2.1.backend.containers :=
  C5_auto_create_runs_once demoCreateStore demoEmptyWorld rfl rfl

/-- C1: round trip — serializing a store for thread `T` holding message
sequence `M` (the shared buffer), then constructing a fresh store over the same
database and container and deserializing with a reference carrying `T` from an
empty starting buffer, yields exactly the sequence `M`, in order, together with
thread identifier `T`. -/
theorem C1_round_trip {Msg : Type} (s s2 : CosmosChatMessageStore) (w : World Msg)
    (rap : List (String × String)) (rms : List Msg) (u : String)
    (h : w.faults = [])
    (hc : (s.database_name, s.container_name) ∈ w.backend.containers)
    (h2 : CosmosChatMessageStore.init (some s.database_name) (some s.container_name)
      "/thread_id" none false false u = .ok s2) :
    ∃ s1 : CosmosChatMessageStore, ∃ w1 : World Msg,
      serialize_state s w = (s1, w1, .ok s.thread_id) ∧
      (deserialize_state s2
          { id := none, thread_id := some s.thread_id,
            additional_properties := rap, messages := rms }
          { w1 with classMessages := [] }).1.thread_id = s.thread_id ∧
      list_messages
          (deserialize_state s2
            { id := none, thread_id := some s.thread_id,
              additional_properties := rap, messages := rms }
            { w1 with classMessages := [] }).1
          (deserialize_state s2
            { id := none, thread_id := some s.thread_id,
              additional_properties := rap, messages := rms }
            { w1 with classMessages := [] }).2.1 = w.classMessages ∧
      (deserialize_state s2
          { id := none, thread_id := some s.thread_id,
            additional_properties := rap, messages := rms }
          { w1 with classMessages := [] }).2.2 = .ok () := by
  have h2e :
      (Except.ok
          { database_name := s.database_name
            container_name := s.container_name
            partition_key := "/thread_id"
            thread_id := u
            save_one_every_message := false
            create_container_and_database := false } :
        Except StoreErr CosmosChatMessageStore) = .ok s2 := h2
  have hs2 :
      ({ database_name := s.database_name
         container_name := s.container_name
         partition_key := "/thread_id"
         thread_id := u
         save_one_every_message := false
         create_container_and_database := false } : CosmosChatMessageStore) = s2 := by
    injection h2e
  subst hs2
  obtain ⟨w1, heq, hf1, hcm1, hcont1, hfind1⟩ := serialize_state_nofault s w h (Or.inr hc)
  refine ⟨{ s with create_container_and_database := false }, w1, heq, ?_⟩
  have hv : CosmosStoreState.model_validate
      { id := none, thread_id := some s.thread_id,
        additional_properties := rap, messages := rms } =
      .ok { id := some s.thread_id, thread_id := s.thread_id,
            additional_properties := rap, messages := rms } := rfl
  have hr : clientReadItem s.database_name s.container_name s.thread_id s.thread_id
      { w1 with classMessages := [] } =
      (.ok { id := some s.thread_id, thread_id := s.thread_id,
             additional_properties := [], messages := w.classMessages },
       { w1 with classMessages := [] }) :=
    clientReadItem_nofault_found s.database_name s.container_name s.thread_id s.thread_id
      { w1 with classMessages := [] } _ hf1 hcont1 hfind1
  rw [deserialize_state_found
    { database_name := s.database_name
      container_name := s.container_name
      partition_key := "/thread_id"
      thread_id := u
      save_one_every_message := false
      create_container_and_database := false } _ _ _ _ _ hv hr]
  exact ⟨rfl, by simp [list_messages], rfl⟩

/-- C1 witness: thread `"t"` with messages `[1, 2]` round-trips through the
fixture backend into a freshly constructed store with an empty starting
buffer. -/
theorem C1_round_trip_witness :
    ∃ s1 : CosmosChatMessageStore, ∃ w1 : World Nat,
      serialize_state demoStore { demoWorld with classMessages := [1, 2] } =
        (s1, w1, .ok "t") ∧
      (deserialize_state demoFreshStore
          { id := none, thread_id := some "t",
            additional_properties := [], messages := [] }
          { w1 with classMessages := [] }).1.thread_id = "t" ∧
      list_messages
          (deserialize_state demoFreshStore
            { id := none, thread_id := some "t",
              additional_properties := [], messages := [] }
            { w1 with classMessages := [] }).1
          (deserialize_state demoFreshStore
            { id := none, thread_id := some "t",
              additional_properties := [], messages := [] }
            { w1 with classMessages := [] }).2.1 = [1, 2] ∧
      (deserialize_state demoFreshStore
          { id := none, thread_id := some "t",
            additional_properties := [], messages := [] }
          { w1 with classMessages := [] }).2.2 = .ok () :=
  C1_round_trip demoStore demoFreshStore { demoWorld with classMessages := [1, 2] }
    [] [] "u" rfl (by decide) rfl

end Claims

end CosmosStore
